import Mathlib

/-!
# Verification of the m3u8-to-mp4 conversion service

Shallow embedding of the two request handlers of the repository
(`src/server.js`, the blocking `execSync` variant, and `src/index.js`,
the event-callback `fluent-ffmpeg` variant) and proofs about the
claims of the specification.

JavaScript strings are modelled as Lean `String`s (sequences of
characters); the filesystem is modelled as a list of present paths
together with a table saying which `unlinkSync` calls throw; the
external ffmpeg process is modelled by its observable outcome (exit
ok / exit nonzero) and, for the callback variant, by the sequence of
callbacks that fire.
-/

set_option autoImplicit false

namespace M3u8

/-! ### JavaScript string primitives -/

/-- Character-list test that `p` is an initial segment of `l`:
the meaning of JavaScript `String.prototype.startsWith`. -/
def leadsWith : List Char → List Char → Bool
  | [], _ => true
  | _ :: _, [] => false
  | p :: ps, c :: cs => p == c && leadsWith ps cs

/-- Embedding of the JavaScript expression `s.startsWith(pre)`. -/
def jsStartsWith (s pre : String) : Bool :=
  leadsWith pre.data s.data

/-! ### Request-body validation (`src/server.js` 48, `src/index.js` 46)

The JS guard is
`!m3u8Url || typeof m3u8Url !== 'string' || !m3u8Url.startsWith('http')`.
A missing / non-string body field is modelled as `none`; a falsy string
is the empty string. -/

/-- Embedding of the validation check of both handlers: the request is
valid when `req.body.url` is a present, non-empty string that starts
with `"http"`. -/
def isValidUrl : Option String → Bool
  | none => false
  | some s => !s.data.isEmpty && jsStartsWith s "http"

/-- Spec-side predicate, following the specification's words only
("a well-formed absolute URL with scheme `http`/`https`"): the string
is `http://` or `https://` followed by a non-empty remainder.  Used to
compare the code's validation against the specification. -/
def wellFormedHttpAbsUrl (s : String) : Bool :=
  (jsStartsWith s "http://" && decide (7 < s.data.length)) ||
  (jsStartsWith s "https://" && decide (8 < s.data.length))

/-! ### Output naming (`src/server.js` 55-57, `src/index.js` 52-53) -/

/-- Embedding of the filename generation of both handlers: the template
literal producing `converted_` + `Date.now()` + `.mp4`, with
`Date.now()` modelled as a natural number of milliseconds. -/
def outputFileName (now : Nat) : String :=
  "converted_" ++ toString now ++ ".mp4"

/-- Embedding of `path.join(dir, outputFileName)` (the directory is
`__dirname/public/downloads` in `server.js`, `/tmp` in `index.js`;
it is a parameter here). -/
def outputPath (dir : String) (now : Nat) : String :=
  dir ++ "/" ++ outputFileName now

/-- Embedding of the relative download URL built at `src/server.js`
line 57: the string `/downloads/` followed by the output filename. -/
def publicDownloadUrl (now : Nat) : String :=
  "/downloads/" ++ outputFileName now

/-- The final path component, the meaning of `path.basename(p)`: the
longest suffix of `p` that contains no separator. -/
def basename (s : String) : String :=
  String.mk ((s.data.reverse.takeWhile (fun c => c != '/')).reverse)

/-- Modelled from the spec: a Job record ("one tracked conversion
request").  The source has no job type; a job is one accepted request,
distinguished by an abstract request identity, and `createdAt` is the
handler's `Date.now()` sample used to build the output name. -/
structure Job where
  reqId : Nat
  createdAt : Nat
deriving DecidableEq, Repr

/-- The output path the source reserves for a job: the `Date.now()`
based name of `src/server.js` 55-56 / `src/index.js` 52-53. -/
def reservePath (dir : String) (j : Job) : String :=
  outputPath dir j.createdAt

/-! ### The ffmpeg invocation (`src/server.js` 65, `src/index.js` 59-61) -/

/-- First literal fragment of the command template of `src/server.js`
line 65, up to the quoted input URL. -/
def cmdFront : String :=
  "ffmpeg -y -protocol_whitelist file,http,https,tcp,tls,crypto -i \""

/-- Middle literal fragment of the command template, between the quoted
input URL and the quoted output path. -/
def cmdMid : String :=
  "\" -bsf:a aac_adtstoasc -c copy \""

/-- Embedding of the template literal
`ffmpeg -y -protocol_whitelist file,http,https,tcp,tls,crypto -i "${m3u8Url}" -bsf:a aac_adtstoasc -c copy "${outputPath}"`. -/
def ffmpegCommand (url out : String) : String :=
  cmdFront ++ url ++ cmdMid ++ out ++ "\""

/-- The input options passed to the fluent-ffmpeg builder at
`src/index.js` line 60. -/
def indexInputOptions : List String :=
  ["-protocol_whitelist", "file,http,https,tcp,tls,crypto"]

/-- The output options passed to the fluent-ffmpeg builder at
`src/index.js` line 61. -/
def indexOutputOptions : List String :=
  ["-bsf:a", "aac_adtstoasc", "-c", "copy"]

/-- The argument vector the fluent-ffmpeg builder of `src/index.js`
59-93 assembles: input options, `-i url`, output options, output path. -/
def indexArgs (url out : String) : List String :=
  indexInputOptions ++ ["-i", url] ++ indexOutputOptions ++ [out]

/-! ### Handler traces (`src/server.js` 44-102)

The blocking handler is a straight-line function; its observable
behaviour is the sequence of events it performs, in order: reserving
the output name, spawning ffmpeg via `execSync`, the process exiting,
and sending the HTTP response. -/

/-- An observable event of the blocking request handler. -/
inductive Ev
  | reserve
  | spawn
  | procExit (ok : Bool)
  | respond (status : Nat)
deriving DecidableEq, Repr

/-- The event trace of the `src/server.js` handler on body `b`, when
the spawned process would exit with success `ok`: an invalid body is
answered 400 at once (line 51); otherwise the name is reserved, ffmpeg
runs synchronously (`execSync`, line 73), and only after it exits is
200 (line 78) or 500 (line 98) sent. -/
def serverTrace (b : Option String) (ok : Bool) : List Ev :=
  if isValidUrl b then
    [.reserve, .spawn, .procExit ok, .respond (if ok then 200 else 500)]
  else
    [.respond 400]

def isRespondEv : Ev → Bool
  | .respond _ => true
  | _ => false

def isExitEv : Ev → Bool
  | .procExit _ => true
  | _ => false

/-- `true` when the first response in the trace comes strictly before
the first process exit (vacuously `true` when one of them is absent):
the "submit returns before the process exits" reading of a trace. -/
def respondBeforeExit (tr : List Ev) : Bool :=
  match tr.findIdx? isRespondEv, tr.findIdx? isExitEv with
  | some i, some j => decide (i < j)
  | _, _ => true

/-- Number of HTTP responses sent along a trace. -/
def countResponds (tr : List Ev) : Nat :=
  (tr.filter isRespondEv).length

/-- What the `src/index.js` handler body returns to the event loop:
either the synchronous 400 rejection of line 48, or control with the
conversion started and the callbacks registered (lines 58-93). -/
inductive HandlerOutcome
  | rejected (status : Nat)
  | started
deriving DecidableEq, Repr

/-- The `src/index.js` handler body: it validates, and on a valid body
registers the ffmpeg callbacks and returns without waiting — no process
exit is observed inside the body. -/
def indexHandlerBody (b : Option String) : HandlerOutcome :=
  if isValidUrl b then .started else .rejected 400

/-! ### HTTP responses -/

/-- A JSON response as built by `res.status(...).json({...})` in either
handler.  `message` and `downloadUrl` are `none` when the corresponding
field is absent or literally `null`. -/
structure Response where
  status : Nat
  success : Bool
  message : Option String
  downloadUrl : Option String
deriving DecidableEq, Repr

/-- The success response of `src/server.js` line 78: success true and
the public download URL. -/
def serverSuccessResponse (now : Nat) : Response :=
  { status := 200, success := true, message := none,
    downloadUrl := some (publicDownloadUrl now) }

/-- The 500 response of the `src/server.js` catch block (line 98). -/
def serverFailureResponse : Response :=
  { status := 500, success := false,
    message := some "FFmpeg conversion failed (execSync). Check backend logs.",
    downloadUrl := none }

/-- The success response of the `src/index.js` end handler (lines
84-88): `downloadUrl: null` — no retrievable artifact reference. -/
def indexEndResponse : Response :=
  { status := 200, success := true,
    message := some "Conversion successful (file in temporary storage).",
    downloadUrl := none }

/-- The 500 response of the `src/index.js` error handler (line 74). -/
def indexErrorResponse (errMsg : String) : Response :=
  { status := 500, success := false,
    message := some ("FFmpeg conversion failed: " ++ errMsg),
    downloadUrl := none }

/-- The 500 response of the `src/index.js` setup catch block (line 99). -/
def indexSetupErrorResponse (errMsg : String) : Response :=
  { status := 500, success := false,
    message := some ("Server error setting up conversion: " ++ errMsg),
    downloadUrl := none }

/-! ### Filesystem model and the failure-cleanup blocks
(`src/server.js` 85-93, `src/index.js` 73) -/

/-- The filesystem as seen by the handlers: the list of paths that
exist, plus a table recording which paths `fs.unlinkSync` would throw
on (permission error, races, ...). -/
structure Fs where
  files : List String
  unlinkThrows : String → Bool

/-- Embedding of `fs.existsSync(p)`. -/
def existsSync (fs : Fs) (p : String) : Bool :=
  fs.files.contains p

/-- Embedding of `fs.unlinkSync(p)`: removes `p`, or throws (modelled
as `Except`). -/
def unlinkSync (fs : Fs) (p : String) : Except String Fs :=
  if fs.unlinkThrows p then .error "unlink failed"
  else .ok { fs with files := fs.files.filter (fun q => q != p) }

/-- The guarded deletion both failure paths perform:
`try { if (fs.existsSync(outputPath)) fs.unlinkSync(outputPath); } catch (e) { console.error(...); }`
— a deletion error is logged and swallowed, leaving the state as it was. -/
def tryCleanup (fs : Fs) (p : String) : Fs :=
  if existsSync fs p then
    match unlinkSync fs p with
    | .ok fs2 => fs2
    | .error _ => fs
  else fs

/-- The whole catch block of `src/server.js` 80-100 as a state
transformer: attempt the guarded deletion, then send the 500 response
(the response does not depend on how the deletion went). -/
def serverCatchBlock (fs : Fs) (p : String) : Fs × Response :=
  (tryCleanup fs p, serverFailureResponse)

/-- The ffmpeg process writing its (possibly partial) artifact at the
output path. -/
def writeArtifact (fs : Fs) (p : String) : Fs :=
  { fs with files := p :: fs.files }

/-- Filesystem effect of the full `src/server.js` handler on body `b`
with process outcome `ok`: an invalid body touches nothing; a valid one
has ffmpeg write the artifact, which on failure is then subjected to the
guarded deletion of the catch block.  On success nothing further
happens to the filesystem. -/
def serverHandlerFs (fs : Fs) (b : Option String) (ok : Bool) (p : String) : Fs :=
  if isValidUrl b then
    let fs1 := writeArtifact fs p
    if ok then fs1 else (serverCatchBlock fs1 p).1
  else fs

/-- The `src/index.js` end handler (lines 76-93) as a state
transformer: it logs and responds; it performs no filesystem
operation (the temp-file cleanup is commented out). -/
def indexEndHandler (fs : Fs) : Fs × Response :=
  (fs, indexEndResponse)

/-! ### The callback machine of `src/index.js` (lines 44, 67-101)

`let responseSent = false;` guards the error callback, the end
callback and the setup catch block; each responds only when the flag
is still unset and then sets it. -/

/-- A firing of one of the three response-producing callbacks of the
`src/index.js` handler. -/
inductive CbEv
  | errorEv
  | endEv
  | setupErr
deriving DecidableEq, Repr

/-- One callback firing against the `responseSent` flag and the list of
responses sent so far. -/
def cbStep : Bool × List Response → CbEv → Bool × List Response
  | (sent, rs), e =>
    if sent then (sent, rs)
    else match e with
      | .errorEv => (true, rs ++ [indexErrorResponse "ffmpeg error"])
      | .endEv => (true, rs ++ [indexEndResponse])
      | .setupErr => (true, rs ++ [indexSetupErrorResponse "setup error"])

/-- Run a sequence of callback firings from the initial state
(`responseSent = false`, nothing sent). -/
def runCallbacks (evs : List CbEv) : Bool × List Response :=
  evs.foldl cbStep (false, [])

end M3u8

namespace M3u8

/-! ### Sanity checks for the embedding -/

example : isValidUrl (some "http://example.com/a.m3u8") = true := by decide
example : isValidUrl (some "not-a-url") = false := by decide
example : isValidUrl (some "") = false := by decide
example : isValidUrl none = false := by decide
example : isValidUrl (some "httpx") = true := by decide
example : wellFormedHttpAbsUrl "httpx" = false := by decide
example : wellFormedHttpAbsUrl "https://e/x.m3u8" = true := by decide

/-! ### Helper lemmas -/

/-- A test for a longer initial segment implies the test for a shorter
one. -/
theorem leadsWith_of_append {a b l : List Char}
    (h : leadsWith (a ++ b) l = true) : leadsWith a l = true := by
  induction a generalizing l with
  | nil => rfl
  | cons x xs ih =>
    cases l with
    | nil => simp [leadsWith] at h
    | cons c cs =>
      simp only [List.cons_append, leadsWith, Bool.and_eq_true] at h ⊢
      exact ⟨h.1, ih h.2⟩

/-- A string with a non-empty initial segment is non-empty. -/
theorem ne_nil_of_leadsWith {p l : List Char} (h : leadsWith p l = true)
    (hp : p.isEmpty = false) : l.isEmpty = false := by
  cases p with
  | nil => simp at hp
  | cons x xs =>
    cases l with
    | nil => simp [leadsWith] at h
    | cons c cs => rfl

/-- Taking while a predicate holds, across an element where it fails,
keeps exactly the elements before that element. -/
theorem takeWhile_append_all (p : Char → Bool) (l1 : List Char) (x : Char)
    (l2 : List Char) (h1 : ∀ a ∈ l1, p a = true) (h2 : p x = false) :
    (l1 ++ x :: l2).takeWhile p = l1 := by
  induction l1 with
  | nil => simp [List.takeWhile_cons, h2]
  | cons a l ih =>
    have ha : p a = true := h1 a (List.mem_cons_self a l)
    simp [List.takeWhile_cons, ha,
      ih (fun b hb => h1 b (List.mem_cons_of_mem a hb))]

/-- Rebuilding a string from its character data is the identity. -/
theorem mk_data (s : String) : String.mk s.data = s := by
  obtain ⟨d⟩ := s
  rfl

/-- Basename of a path built by joining a directory, a separator and a
separator-free filename is that filename. -/
theorem basename_join (dir name : String)
    (h : ∀ c ∈ name.data, (c != '/') = true) :
    basename (dir ++ "/" ++ name) = name := by
  unfold basename
  have hd : (dir ++ "/" ++ name).data = (dir.data ++ ['/']) ++ name.data := by
    simp [String.data_append]
  rw [hd, List.reverse_append, List.reverse_append]
  simp only [List.reverse_cons, List.reverse_nil, List.nil_append,
    List.singleton_append]
  rw [takeWhile_append_all _ name.data.reverse '/' dir.data.reverse
      (fun a ha => h a (List.mem_reverse.mp ha)) (by decide)]
  rw [List.reverse_reverse, mk_data]

/-- Filtering out every element equal to `p` leaves a list in which
`p` does not occur. -/
theorem not_mem_filter_ne (l : List String) (p : String) :
    p ∉ l.filter (fun q => q != p) := by
  intro hmem
  have h2 := (List.mem_filter.mp hmem).2
  simp at h2

/-- Once the response flag is set, the callback machine is inert. -/
theorem foldl_cbStep_sent (evs : List CbEv) (rs : List Response) :
    evs.foldl cbStep (true, rs) = (true, rs) := by
  induction evs with
  | nil => rfl
  | cons e es ih => simpa [cbStep] using ih

/-! ### Claim C1 -/

/-- Claim C1, refuted as stated: on the concrete valid submission
`http://example.com/stream.m3u8`, the blocking handler of
`src/server.js` does not return its result before the process exits —
its trace responds only after the process-exit event. -/
theorem submit_blocks_on_valid_input :
    isValidUrl (some "http://example.com/stream.m3u8") = true ∧
    respondBeforeExit
      (serverTrace (some "http://example.com/stream.m3u8") true) = false := by
  decide

/-- Claim C1 as amended: for every valid submission, the blocking
variant (`src/server.js`) sends its response only after the process
exits — `execSync` waits synchronously — while the event-callback
variant (`src/index.js`) returns from the handler body with the
conversion started, observing the process exit only via callbacks. -/
theorem submit_return_order (b : Option String) (ok : Bool)
    (h : isValidUrl b = true) :
    respondBeforeExit (serverTrace b ok) = false ∧
    indexHandlerBody b = .started := by
  constructor
  · have ht : serverTrace b ok
        = [.reserve, .spawn, .procExit ok, .respond (if ok then 200 else 500)] := by
      simp [serverTrace, h]
    rw [ht]
    cases ok <;> decide
  · simp [indexHandlerBody, h]

/-- Witness for `submit_return_order` at a concrete valid submission. -/
theorem submit_return_order_witness :
    respondBeforeExit (serverTrace (some "https://host/v.m3u8") false) = false ∧
    indexHandlerBody (some "https://host/v.m3u8") = .started :=
  submit_return_order (some "https://host/v.m3u8") false (by decide)

/-! ### Claim C2 -/

/-- Claim C2, refuted as stated: the string `httpx` is accepted by the
validation of both handlers although it is not a well-formed absolute
URL with scheme http or https. -/
theorem validation_accepts_non_url :
    isValidUrl (some "httpx") = true ∧ wellFormedHttpAbsUrl "httpx" = false := by
  decide

/-- Claim C2 as amended: the validation accepts exactly the present,
non-empty string bodies that start with the four characters `http` —
in particular every well-formed absolute http/https URL is accepted,
but so are non-URLs such as `httpx`; a missing body is rejected. -/
theorem validation_characterization (s : String) :
    (wellFormedHttpAbsUrl s = true → isValidUrl (some s) = true) ∧
    (isValidUrl (some s) = true ↔
      s.data.isEmpty = false ∧ leadsWith "http".data s.data = true) ∧
    isValidUrl none = false := by
  refine ⟨?_, ?_, rfl⟩
  · intro h
    simp only [wellFormedHttpAbsUrl, Bool.or_eq_true, Bool.and_eq_true] at h
    have e1 : ("http://" : String).data = "http".data ++ [':', '/', '/'] := by
      decide
    have e2 : ("https://" : String).data = "http".data ++ ['s', ':', '/', '/'] := by
      decide
    have hlead : leadsWith "http".data s.data = true := by
      rcases h with ⟨h1, _⟩ | ⟨h1, _⟩
      · simp only [jsStartsWith, e1] at h1
        exact leadsWith_of_append h1
      · simp only [jsStartsWith, e2] at h1
        exact leadsWith_of_append h1
    have hne : s.data.isEmpty = false :=
      ne_nil_of_leadsWith hlead (by decide)
    simp [isValidUrl, jsStartsWith, hlead, hne]
  · simp [isValidUrl, jsStartsWith, Bool.and_eq_true, Bool.not_eq_true']

/-- Witness for `validation_characterization`: a concrete well-formed
https URL is accepted. -/
theorem validation_characterization_witness :
    isValidUrl (some "https://example.com/a.m3u8") = true :=
  (validation_characterization "https://example.com/a.m3u8").1 (by decide)

/-! ### Claim C5 -/

/-- Claim C5, confirmed: for every accepted request, the constructed
invocation contains the input-protocol allow-list, the stream-copy
flag, the audio bitstream filter, the source URL as input, and the
reserved output path as output — both in the command string of
`src/server.js` and in the option lists of `src/index.js`. -/
theorem invocation_contents (url out : String) :
    (∃ l r, l ++ url.data ++ r = (ffmpegCommand url out).data) ∧
    (∃ l r, l ++ out.data ++ r = (ffmpegCommand url out).data) ∧
    (∃ l r, l ++ ("-protocol_whitelist file,http,https,tcp,tls,crypto").data ++ r
        = (ffmpegCommand url out).data) ∧
    (∃ l r, l ++ ("-bsf:a aac_adtstoasc").data ++ r = (ffmpegCommand url out).data) ∧
    (∃ l r, l ++ ("-c copy").data ++ r = (ffmpegCommand url out).data) ∧
    (∃ l r, l ++ indexInputOptions ++ r = indexArgs url out) ∧
    (∃ l r, l ++ indexOutputOptions ++ r = indexArgs url out) ∧
    url ∈ indexArgs url out ∧ out ∈ indexArgs url out := by
  have hfront : cmdFront.data
      = "ffmpeg -y ".data
        ++ ("-protocol_whitelist file,http,https,tcp,tls,crypto").data
        ++ " -i \"".data := by decide
  have hmid : cmdMid.data
      = "\" ".data ++ ("-bsf:a aac_adtstoasc").data ++ " ".data
        ++ ("-c copy").data ++ " \"".data := by decide
  refine ⟨?_, ?_, ?_, ?_, ?_, ?_, ?_, ?_, ?_⟩
  · exact ⟨cmdFront.data, cmdMid.data ++ out.data ++ "\"".data, by
      simp [ffmpegCommand, String.data_append]⟩
  · exact ⟨cmdFront.data ++ url.data ++ cmdMid.data, "\"".data, by
      simp [ffmpegCommand, String.data_append]⟩
  · exact ⟨"ffmpeg -y ".data,
      " -i \"".data ++ url.data ++ cmdMid.data ++ out.data ++ "\"".data, by
      simp [ffmpegCommand, String.data_append, hfront]⟩
  · exact ⟨cmdFront.data ++ url.data ++ "\" ".data,
      " ".data ++ ("-c copy").data ++ " \"".data ++ out.data ++ "\"".data, by
      simp [ffmpegCommand, String.data_append, hmid]⟩
  · exact ⟨cmdFront.data ++ url.data ++ "\" ".data
        ++ ("-bsf:a aac_adtstoasc").data ++ " ".data,
      " \"".data ++ out.data ++ "\"".data, by
      simp [ffmpegCommand, String.data_append, hmid]⟩
  · exact ⟨[], ["-i", url] ++ indexOutputOptions ++ [out], by
      simp [indexArgs]⟩
  · exact ⟨indexInputOptions ++ ["-i", url], [out], by
      simp [indexArgs]⟩
  · simp [indexArgs, indexInputOptions, indexOutputOptions]
  · simp [indexArgs, indexInputOptions, indexOutputOptions]

/-! ### Claim C6 -/

/-- Claim C6, confirmed: a submission whose sourceUrl fails validation
is answered synchronously with a 400 rejection; no output name is
reserved and no process is spawned in either variant. -/
theorem invalid_rejected_synchronously (b : Option String) (ok : Bool)
    (h : isValidUrl b = false) :
    serverTrace b ok = [.respond 400] ∧
    Ev.spawn ∉ serverTrace b ok ∧
    Ev.reserve ∉ serverTrace b ok ∧
    indexHandlerBody b = .rejected 400 := by
  simp [serverTrace, indexHandlerBody, h]

/-- Witness for `invalid_rejected_synchronously` at the concrete
submission `not-a-url`. -/
theorem invalid_rejected_synchronously_witness :
    serverTrace (some "not-a-url") true = [.respond 400] ∧
    Ev.spawn ∉ serverTrace (some "not-a-url") true ∧
    Ev.reserve ∉ serverTrace (some "not-a-url") true ∧
    indexHandlerBody (some "not-a-url") = .rejected 400 :=
  invalid_rejected_synchronously (some "not-a-url") true (by decide)

/-! ### Claim C3 -/

/-- Claim C3, confirmed: whatever non-empty sequence of callback
firings (error, end, setup exception) occurs, the `responseSent` flag
of `src/index.js` lets exactly one response through — never zero,
never two; and every trace of the blocking `src/server.js` handler
contains exactly one response. -/
theorem exactly_one_response (evs : List CbEv) (h : evs ≠ []) :
    (runCallbacks evs).2.length = 1 ∧
    (∀ evs2, (runCallbacks evs2).2.length ≤ 1) ∧
    (∀ b ok, countResponds (serverTrace b ok) = 1) := by
  have key : ∀ es : List CbEv, es ≠ [] → (runCallbacks es).2.length = 1 := by
    intro es hne
    cases es with
    | nil => exact absurd rfl hne
    | cons e tail =>
      cases e <;>
        simp [runCallbacks, List.foldl_cons, cbStep, foldl_cbStep_sent]
  refine ⟨key evs h, ?_, ?_⟩
  · intro evs2
    cases evs2 with
    | nil => simp [runCallbacks]
    | cons e tail => simp [key (e :: tail) (by simp)]
  · intro b ok
    by_cases hb : isValidUrl b = true
    · simp [serverTrace, hb, countResponds, isRespondEv]
    · have hb2 : isValidUrl b = false := by simpa using hb
      simp [serverTrace, hb2, countResponds, isRespondEv]

/-- Witness for `exactly_one_response`: the end callback followed by a
late error callback produces exactly one response. -/
theorem exactly_one_response_witness :
    (runCallbacks [CbEv.endEv, CbEv.errorEv]).2.length = 1 :=
  (exactly_one_response [CbEv.endEv, CbEv.errorEv] (by decide)).1

/-! ### Claim C4 -/

/-- Claim C4, refuted as stated: when `fs.unlinkSync` itself throws,
the failure outcome is still reported but the partial artifact remains
at the output path — here on the concrete failed conversion writing
`/tmp/converted_5.mp4` on a filesystem whose unlink always throws. -/
theorem failure_leaves_partial_file :
    (outputPath "/tmp" 5) ∈ (serverHandlerFs ⟨[], fun _ => true⟩
        (some "http://h/s.m3u8") false (outputPath "/tmp" 5)).files ∧
    (serverCatchBlock
        (writeArtifact ⟨[], fun _ => true⟩ (outputPath "/tmp" 5))
        (outputPath "/tmp" 5)).2 = serverFailureResponse := by
  exact ⟨by decide, rfl⟩

/-- Claim C4 as amended: for every conversion that ends in failure,
the partial file at the output path is removed provided the deletion
call itself does not throw; a throwing deletion is swallowed, so the
file may then remain. -/
theorem failure_removes_partial_file (fs : Fs) (b : Option String) (p : String)
    (hv : isValidUrl b = true) (hu : fs.unlinkThrows p = false) :
    p ∉ (serverHandlerFs fs b false p).files := by
  have hstep : serverHandlerFs fs b false p = tryCleanup (writeArtifact fs p) p := by
    simp [serverHandlerFs, hv, serverCatchBlock]
  have hex : existsSync (writeArtifact fs p) p = true := by
    simp [existsSync, writeArtifact, List.contains_cons]
  have hun : unlinkSync (writeArtifact fs p) p
      = .ok ⟨(p :: fs.files).filter (fun q => q != p), fs.unlinkThrows⟩ := by
    simp [unlinkSync, writeArtifact, hu]
  rw [hstep]
  unfold tryCleanup
  rw [if_pos hex, hun]
  show p ∉ (p :: fs.files).filter (fun q => q != p)
  have hc : (p :: fs.files).filter (fun q => q != p)
      = fs.files.filter (fun q => q != p) := by
    simp [List.filter_cons]
  rw [hc]
  exact not_mem_filter_ne fs.files p

/-- Witness for `failure_removes_partial_file` on a concrete failed
conversion whose unlink succeeds. -/
theorem failure_removes_partial_file_witness :
    "/d/converted_7.mp4" ∉ (serverHandlerFs ⟨["/d/other.mp4"], fun _ => false⟩
        (some "http://a/b.m3u8") false "/d/converted_7.mp4").files :=
  failure_removes_partial_file ⟨["/d/other.mp4"], fun _ => false⟩
    (some "http://a/b.m3u8") "/d/converted_7.mp4" (by decide) rfl

/-! ### Claim C7 -/

/-- Claim C7, confirmed: when the deletion of the partial file throws,
the error is swallowed — the filesystem state is left as it was — and
the catch block still reports the unchanged primary failure response. -/
theorem cleanup_error_swallowed (fs : Fs) (p : String)
    (h : fs.unlinkThrows p = true) :
    (serverCatchBlock fs p).2 = serverFailureResponse ∧
    (serverCatchBlock fs p).1 = fs := by
  refine ⟨rfl, ?_⟩
  simp [serverCatchBlock, tryCleanup, unlinkSync, h]

/-- Witness for `cleanup_error_swallowed` on a concrete filesystem
whose unlink always throws. -/
theorem cleanup_error_swallowed_witness :
    (serverCatchBlock ⟨["/t/converted_9.mp4"], fun _ => true⟩
        "/t/converted_9.mp4").2 = serverFailureResponse ∧
    (serverCatchBlock ⟨["/t/converted_9.mp4"], fun _ => true⟩
        "/t/converted_9.mp4").1 = ⟨["/t/converted_9.mp4"], fun _ => true⟩ :=
  cleanup_error_swallowed ⟨["/t/converted_9.mp4"], fun _ => true⟩
    "/t/converted_9.mp4" rfl

/-! ### Claim C8 -/

/-- Claim C8, refuted on the code as written: two distinct jobs whose
requests are handled in the same millisecond receive the same
`Date.now()` sample, and the naming of `src/server.js` 55-56 and
`src/index.js` 52-53 then reserves the same output path for both —
although the code's own comment says "Generate unique filename". -/
theorem output_path_collision :
    Job.mk 0 1700000000000 ≠ Job.mk 1 1700000000000 ∧
    reservePath "/app/backend/public/downloads" (Job.mk 0 1700000000000)
      = reservePath "/app/backend/public/downloads" (Job.mk 1 1700000000000) :=
  ⟨by decide, rfl⟩

/-! ### Claim C9 -/

/-- Claim C9, refuted as stated: in the `src/index.js` variant, the
success response delivered by the end handler carries a null artifact
reference (`downloadUrl: null`). -/
theorem async_success_lacks_download_url :
    (indexEndHandler ⟨[], fun _ => false⟩).2.success = true ∧
    (indexEndHandler ⟨[], fun _ => false⟩).2.downloadUrl = none :=
  ⟨rfl, rfl⟩

/-- Claim C9 as amended: the blocking variant's success response
carries the non-null public download URL, while the `src/index.js`
variant's success response carries no artifact reference at all. -/
theorem success_artifact_reference (now : Nat) (fs : Fs) :
    (serverSuccessResponse now).downloadUrl = some (publicDownloadUrl now) ∧
    (serverSuccessResponse now).downloadUrl ≠ none ∧
    (indexEndHandler fs).2.success = true ∧
    (indexEndHandler fs).2.downloadUrl = none := by
  refine ⟨rfl, by simp [serverSuccessResponse], rfl, rfl⟩

/-! ### Claim C10 -/

/-- Claim C10, confirmed: on the success path no deletion is
performed — the blocking handler leaves exactly the written artifact
present, and the end handler of `src/index.js` does not touch the
filesystem — and the blocking variant's download URL is the static
route `/downloads/` joined with the basename of the output path. -/
theorem success_path_frame (fs : Fs) (b : Option String) (dir : String) (now : Nat)
    (hv : isValidUrl b = true)
    (hn : ∀ c ∈ (outputFileName now).data, (c != '/') = true) :
    serverHandlerFs fs b true (outputPath dir now)
      = writeArtifact fs (outputPath dir now) ∧
    (indexEndHandler fs).1 = fs ∧
    publicDownloadUrl now = "/downloads/" ++ basename (outputPath dir now) := by
  refine ⟨by simp [serverHandlerFs, hv], rfl, ?_⟩
  simp only [outputPath]
  rw [basename_join dir (outputFileName now) hn]
  rfl

/-- Witness for `success_path_frame` at a concrete successful
conversion. -/
theorem success_path_frame_witness :
    serverHandlerFs ⟨[], fun _ => false⟩ (some "http://x/y.m3u8") true
        (outputPath "/app/pub" 1700000000000)
      = writeArtifact ⟨[], fun _ => false⟩ (outputPath "/app/pub" 1700000000000) ∧
    (indexEndHandler (⟨[], fun _ => false⟩ : Fs)).1 = ⟨[], fun _ => false⟩ ∧
    publicDownloadUrl 1700000000000
      = "/downloads/" ++ basename (outputPath "/app/pub" 1700000000000) :=
  success_path_frame ⟨[], fun _ => false⟩ (some "http://x/y.m3u8")
    "/app/pub" 1700000000000 (by decide) (by decide)

end M3u8
